import Mathlib

/-!
# Verification of the chat-backend streaming relay subsystem

A shallow embedding, in Lean 4, of the streaming relay and connection
management logic of the chat backend (FastAPI + Redis + WebSocket source
tree under `app/`), together with theorems settling the specification
claims about it.

The embedding follows the Python source closely:

* `app/tasks/message_tasks.py` — the Redis chunk store
  (`save_message_chunk_to_redis`, `get_message_content_from_redis`);
* `app/api/chats.py` — the callback ingest endpoint (`message_callback`),
  message creation (`create_message`), message listing (`get_messages`);
* `app/services/ai_service.py` — the outbound call to the generation
  service (`send_to_ai_service`);
* `app/api/websockets.py` — the connection registry
  (`active_connections`), registration, broadcast (`broadcast_message`),
  and idempotent close (`safe_close_websocket`);
* `app/services/chat_service.py` — `add_reaction`.

Database rows are modelled as Lean structures, the database and the Redis
store as association lists, and each endpoint as a pure state-passing
function returning the new state plus an HTTP-level result.  Exceptional
Python control flow that the source catches locally is embedded as
`Except`; exceptions the source lets escape are explicit error results.
-/

namespace TenderBackend

/-! ## Data model (`app/db/models.py`) -/

/-- `MessageStatus` enum from `app/db/models.py`. -/
inductive MessageStatus where
  | pending
  | processing
  | completed
  | failed
deriving DecidableEq, Repr

/-- `MessageType` enum from `app/db/models.py`. -/
inductive MessageType where
  | user
  | ai
  | system
deriving DecidableEq, Repr

/-- `ReactionType` enum from `app/db/models.py`. -/
inductive ReactionType where
  | like
  | dislike
deriving DecidableEq, Repr

/-! ## Chunk store (`app/tasks/message_tasks.py`)

The Redis instance is modelled as a pair of association lists: one for the
content keys `message:{id}` and one for the timestamp keys
`message:{id}:last_updated`.  In the source both live in a single Redis
keyspace, but a content key can never collide with a timestamp key
(message ids are UUID strings, which cannot end in `:last_updated`), so
the split is behaviour-preserving.  The two `expire(…, 3600)` calls set a
time-to-live; the claims under verification never let the one-hour window
elapse, so the TTL value itself is not tracked.  Both Python functions
wrap the Redis round-trip in `try/except` and degrade (returning `False`
resp. `""`) when the store is unavailable; the embedding models the
store-available path. -/

/-- Update the first binding of `k` in an association list, or append a new
binding `(k, v₀)` if none exists; used to model Redis `SET`. -/
def assocSet : List (String × String) → String → String → List (String × String)
  | [], k, v => [(k, v)]
  | (k', v') :: rest, k, v =>
    if k' = k then (k', v) :: rest else (k', v') :: assocSet rest k v

/-- Look up the first binding of `k`; `none` models an absent Redis key. -/
def assocFind : List (String × String) → String → Option String
  | [], _ => none
  | (k', v') :: rest, k => if k' = k then some v' else assocFind rest k

/-- Redis `APPEND key chunk`: extend the existing value, or create the key
with value `chunk` when it is absent. -/
def assocAppend : List (String × String) → String → String → List (String × String)
  | [], k, v => [(k, v)]
  | (k', v') :: rest, k, v =>
    if k' = k then (k', v' ++ v) :: rest else (k', v') :: assocAppend rest k v

/-- The modelled Redis state: content keys and `last_updated` timestamp
keys (timestamps as integer seconds, as stored by `redis.time()`). -/
structure RedisState where
  content : List (String × String)
  lastUpdated : List (String × String)
deriving DecidableEq, Repr

/-- The empty Redis keyspace. -/
def RedisState.empty : RedisState := ⟨[], []⟩

/-- `save_message_chunk_to_redis(message_id, chunk)`
(`app/tasks/message_tasks.py` lines 102–131): `APPEND` the chunk to
`message:{message_id}`, refresh the TTL, and `SET` the
`message:{message_id}:last_updated` timestamp key to the current Redis
server time `now`. -/
def save_message_chunk_to_redis (st : RedisState) (message_id chunk : String)
    (now : String) : RedisState :=
  { content := assocAppend st.content message_id chunk
    lastUpdated := assocSet st.lastUpdated message_id now }

/-- `get_message_content_from_redis(message_id)`
(`app/tasks/message_tasks.py` lines 134–157): `GET message:{message_id}`;
a missing key (and likewise a store error, which the source swallows)
yields `""`.  A present empty value also yields `""` in the source
(`if content:` is false on `b""`), which coincides with returning the
stored value. -/
def get_message_content_from_redis (st : RedisState) (message_id : String) : String :=
  match assocFind st.content message_id with
  | some c => c
  | none => ""

/-- One recorded append operation: a message id, the chunk text, and the
Redis server time at which it happened. -/
structure AppendOp where
  message_id : String
  chunk : String
  now : String
deriving DecidableEq, Repr

/-- Replay a sequence of `save_message_chunk_to_redis` calls. -/
def replayAppends (st : RedisState) (ops : List AppendOp) : RedisState :=
  ops.foldl (fun s op => save_message_chunk_to_redis s op.message_id op.chunk op.now) st

/-- Ordered concatenation of a list of strings. -/
def concatAll : List String → String
  | [] => ""
  | s :: rest => s ++ concatAll rest

/-- The ordered concatenation of the fragments appended for message id `m`. -/
def appendedFor (ops : List AppendOp) (m : String) : String :=
  concatAll ((ops.filter (fun op => op.message_id = m)).map (fun op => op.chunk))

/-! ## Callback ingest (`app/api/chats.py`, `message_callback`, lines 442–554)

The endpoint is addressed at a fixed `(chat_id, message_id)` pair, so the
state carries the database rows relevant to that pair: the addressed
message row (`none` when the `Message.id == message_id AND
Message.chat_id == chat_id` query is empty), the owning chat row, the
`Source` table, the Redis state, and the log of payloads handed to
`broadcast_message` (delivery itself is modelled with the connection
registry further below). -/

/-- The addressed `Message` row: the fields `message_callback` reads or
writes. -/
structure MsgRec where
  content : String
  status : MessageStatus
deriving DecidableEq, Repr

/-- The owning `Chat` row: the fields `message_callback` reads. -/
structure ChatRec where
  user_id : String
  suggestions : List String
deriving DecidableEq, Repr

/-- A `Source` row as inserted by `message_callback`. -/
structure SourceRow where
  message_id : String
  title : String
  content : Option String
  url : String
deriving DecidableEq, Repr

/-- One element of the callback's `context_used`/`content_used` list.
`id` is `ref.get("id")` (absent ↦ `none`), `source` is
`ref.get("source", "")`, `title` is `source.get("title", "")` (read only
by the broadcast normalizer), and `page` is `ref.get("page")` (a JSON
number in the source). -/
structure SrcData where
  id : Option String
  source : String
  title : String
  page : Option Nat
deriving DecidableEq, Repr

/-- `str(page) if page else None` from `message_callback`: Python
truthiness makes both a missing page and page `0` map to `None`. -/
def pageStr : Option Nat → Option String
  | some n => if n ≠ 0 then some (toString n) else none
  | none => none

/-- The `Source(...)` constructed in `message_callback` for one reference,
or `none` when skipped: the row is created only `if ref_id and
source_name` (both truthy). -/
def mkSourceRow (message_id : String) (ref : SrcData) : Option SourceRow :=
  match ref.id with
  | some rid =>
    if rid ≠ "" ∧ ref.source ≠ "" then
      some { message_id := message_id, title := ref.source
             content := pageStr ref.page, url := rid }
    else none
  | none => none

/-- The normalized source shape built by `broadcast_message_complete`
(`app/api/websockets.py` lines 411–424): `id`/`url` from `get("id","")`,
`title` from `get("source","") or get("title","")`, `content` is the raw
`get("page", None)`. -/
structure NormSource where
  id : String
  title : String
  content : Option Nat
  url : String
deriving DecidableEq, Repr

/-- `broadcast_message_complete`'s per-source normalization. -/
def normalizeSource (ref : SrcData) : NormSource :=
  { id := ref.id.getD ""
    title := if ref.source ≠ "" then ref.source else ref.title
    content := ref.page
    url := ref.id.getD "" }

/-- A `chunk` payload as assembled in `message_callback`: `chat_name` and
`suggestions` keys are included only when truthy (`chat_name = none` and
`suggestions = []` model the absent keys). -/
structure ChunkEvent where
  target : String
  message_id : String
  content : String
  chat_name : Option String
  suggestions : List String
deriving DecidableEq, Repr

/-- A `complete` payload as assembled by `broadcast_message_complete`:
the `sources` key is present only when the source list is truthy. -/
structure CompleteEvent where
  target : String
  message_id : String
  sources : Option (List NormSource)
  suggestions : List String
deriving DecidableEq, Repr

/-- A payload handed to `broadcast_message`, with the `chat_id:user_id`
key it is addressed to. -/
inductive BroadcastMsg where
  | chunk (e : ChunkEvent)
  | complete (e : CompleteEvent)
deriving DecidableEq, Repr

/-- The JSON body of the callback `POST`.  `chunk_id`, `content` and
`is_final` are `none` when the key is absent (the endpoint rejects the
request in that case); `name` is `data.get("name")`; `suggestions` is
`data.get("suggestions", [])`; `context_used`/`content_used` default to
`[]`. -/
structure CallbackData where
  chunk_id : Option String
  content : Option String
  is_final : Option Bool
  name : Option String
  suggestions : List String
  context_used : List SrcData
  content_used : List SrcData
deriving DecidableEq, Repr

/-- The state read and written by one callback request. -/
structure CallbackState where
  message : Option MsgRec
  chat : Option ChatRec
  sources : List SourceRow
  redis : RedisState
  broadcasts : List BroadcastMsg
deriving DecidableEq, Repr

/-- The HTTP outcome of the callback: `{"status": "success"}` or an
`HTTPException` with the given status code. -/
inductive CbResult where
  | success
  | httpError (code : Nat)
deriving DecidableEq, Repr

/-- The fallback user id `UUID("00000000-0000-0000-0000-000000000000")`. -/
def zeroUuid : String := "00000000-0000-0000-0000-000000000000"

/-- `message_callback` (`app/api/chats.py` lines 442–554), for the
addressed `(chat_id, message_id)` pair.  Steps, in source order: 404 when
the message row is absent; 400 when a required key is missing; append the
fragment to Redis; broadcast a `chunk` payload; when `is_final`, read the
accumulated content back, persist it with status `completed`, replace the
message's sources when the payload carries any, and broadcast a
`complete` payload with the chat's current suggestions.  There is no
already-completed check anywhere on this path. -/
def message_callback (chat_id message_id now : String) (st : CallbackState)
    (data : CallbackData) : CallbackState × CbResult :=
  match st.message with
  | none => (st, .httpError 404)
  | some _msg =>
    if !(data.chunk_id.isSome && data.content.isSome && data.is_final.isSome) then
      (st, .httpError 400)
    else
      let user_id := match st.chat with | some c => c.user_id | none => zeroUuid
      let target := chat_id ++ ":" ++ user_id
      let content := data.content.getD ""
      let is_final := data.is_final.getD false
      let suggestions := data.suggestions
      let sources_data :=
        if data.content_used ≠ [] then data.content_used else data.context_used
      let redis1 := save_message_chunk_to_redis st.redis message_id content now
      let chunkEvt : BroadcastMsg := .chunk
        { target := target
          message_id := message_id
          content := content
          chat_name := match data.name with
            | some n => if n ≠ "" then some n else none
            | none => none
          suggestions := suggestions }
      let st1 : CallbackState :=
        { st with redis := redis1, broadcasts := st.broadcasts ++ [chunkEvt] }
      if is_final then
        let full := get_message_content_from_redis redis1 message_id
        let completedMsg : MsgRec := { content := full, status := .completed }
        let sources1 :=
          if sources_data ≠ [] then
            st1.sources.filter (fun s => ¬ s.message_id = message_id) ++
              sources_data.filterMap (mkSourceRow message_id)
          else st1.sources
        let final_suggestions :=
          match st1.chat with | some c => c.suggestions | none => suggestions
        let completeEvt : BroadcastMsg := .complete
          { target := target
            message_id := message_id
            sources :=
              if sources_data ≠ [] then some (sources_data.map normalizeSource) else none
            suggestions := final_suggestions }
        ({ st1 with message := some completedMsg, sources := sources1,
                    broadcasts := st1.broadcasts ++ [completeEvt] }, .success)
      else
        (st1, .success)

/-! ## Message listing (`app/api/chats.py`, `get_messages`, lines 142–188)

The endpoint takes the rows returned by `chat_service.get_messages` (in
`created_at` order) and, for each AI message still in `pending` or
`processing`, overrides the returned content with the accumulated Redis
content when that is non-empty (`if redis_content:`).  The
`try/except` around the Redis read degrades to the persisted content;
the embedding models the store-available path. -/

/-- A `Message` row as read by the listing endpoint. -/
structure MsgFull where
  id : String
  message_type : MessageType
  status : MessageStatus
  content : String
deriving DecidableEq, Repr

/-- `get_messages`: the list of message schemas returned to the client
(only the content field is ever rewritten). -/
def get_messages (msgs : List MsgFull) (redis : RedisState) : List MsgFull :=
  msgs.map (fun m =>
    if m.message_type = .ai ∧ (m.status = .pending ∨ m.status = .processing) then
      let redis_content := get_message_content_from_redis redis m.id
      if redis_content ≠ "" then { m with content := redis_content } else m
    else m)

/-! ## Message creation (`app/api/chats.py`, `create_message`, lines
191–339, and `app/services/ai_service.py`, `send_to_ai_service`, lines
38–143) -/

/-- Python `str.lower`, restricted to the character ranges that occur in
the support keywords and their contexts: ASCII letters and the primary
Cyrillic block `А`–`Я` plus `Ё`.  (The keywords themselves are lowercase
Cyrillic, so agreement on these ranges decides keyword containment.) -/
def lowerChar (c : Char) : Char :=
  if 'А' ≤ c ∧ c ≤ 'Я' then Char.ofNat (c.toNat + 0x20)
  else if c = 'Ё' then 'ё'
  else c.toLower

/-- `content.lower()`. -/
def lowerStr (s : String) : String := String.mk (s.data.map lowerChar)

/-- Whether the first list is a leading segment of the second. -/
def listStartsWith : List Char → List Char → Bool
  | [], _ => true
  | _ :: _, [] => false
  | a :: as, b :: bs => a == b && listStartsWith as bs

/-- Whether `needle` occurs contiguously inside the second list; models
Python's `needle in haystack` on strings. -/
def listHasSub (needle : List Char) : List Char → Bool
  | [] => needle.isEmpty
  | b :: bs => listStartsWith needle (b :: bs) || listHasSub needle bs

/-- `keyword in message_lower`. -/
def strContains (haystack needle : String) : Bool :=
  listHasSub needle.data haystack.data

/-- The `support_keywords` list from `create_message`. -/
def support_keywords : List String :=
  ["оператор", "поддержк", "консультант", "помощник", "специалист"]

/-- The support-request detection of `create_message` lines 204–212:
false for empty content (`if message_data.content:`), otherwise true iff
any keyword occurs in the lowercased content. -/
def is_support_request (content : String) : Bool :=
  if content ≠ "" then
    support_keywords.any (fun kw => strContains (lowerStr content) kw)
  else false

/-- The fixed system-message text for a support request
(`create_message` line 217). -/
def support_response_content : String :=
  "Запрос на соединение с оператором отправлен. Пожалуйста, ожидайте, оператор присоединится к чату в ближайшее время."

/-- The placeholder content written by the AI-failure branch
(`create_message` line 325). -/
def failure_placeholder : String :=
  "Sorry, I'm having trouble processing your request right now. Please try again later."

/-- The possible outcomes of the HTTP round trip inside
`send_to_ai_service`: the `requests.post` call raises, returns a non-200
status, returns 200 with a body that fails to parse as JSON, or returns
200 with parseable JSON. -/
inductive AiHttpOutcome where
  | connectionError
  | timeout
  | requestError
  | otherError
  | non200 (code : Nat)
  | ok200malformedJson
  | ok200
deriving DecidableEq, Repr

/-- `send_to_ai_service(message_content, conversation_history,
callback_url)` (`app/services/ai_service.py` lines 38–143).  Every
raised `requests` exception is caught and every non-success path returns
`False`; the function returns `True` exactly when the status is 200 and
the response body parses as JSON.  (The request payload assembled from
the three parameters does not influence the returned value.) -/
def send_to_ai_service (_message_content : String) (_callback_url : String)
    (outcome : AiHttpOutcome) : Bool :=
  match outcome with
  | .ok200 => true
  | _ => false

/-- The parameter list of `ai_service.send_to_ai_service` as defined in
`app/services/ai_service.py` line 38. -/
def send_to_ai_service_params : List String :=
  ["message_content", "conversation_history", "callback_url"]

/-- The keyword arguments `create_message` passes at `app/api/chats.py`
lines 280–285. -/
def create_message_ai_call_kwargs : List String :=
  ["message_content", "conversation_history", "callback_url", "file_contents"]

/-- Python call binding for keyword arguments: the call raises
`TypeError` unless every passed keyword names a parameter and every
(default-less) parameter is supplied. -/
def pyCallBindsOk (params kwargs : List String) : Bool :=
  kwargs.all (fun k => params.contains k) && params.all (fun p => kwargs.contains p)

/-- Python exceptions raised by the AI dispatch step. -/
inductive PyError where
  | typeError
  | attributeError
deriving DecidableEq, Repr

/-- `ai_response.get("success")` where `ai_response` is the `bool`
returned by `send_to_ai_service`: Python `bool` has no attribute `get`,
so this step raises `AttributeError` regardless of the value. -/
def py_bool_get_success (_b : Bool) : Except PyError Bool :=
  .error .attributeError

/-- The AI dispatch step of `create_message` (lines 280–287): the call
`ai_service.send_to_ai_service(…, file_contents=…)` followed by
`ai_response.get("success")`.  The callee (as defined in
`app/services/ai_service.py`) accepts no `file_contents` parameter, so
the call raises `TypeError` before any request is sent; even with a
matching binding, `.get` on the returned `bool` would raise
`AttributeError`. -/
def dispatch_to_ai (message_content callback_url : String)
    (outcome : AiHttpOutcome) : Except PyError Bool :=
  if pyCallBindsOk send_to_ai_service_params create_message_ai_call_kwargs then
    py_bool_get_success (send_to_ai_service message_content callback_url outcome)
  else
    .error .typeError

/-- A message row as created by `chat_service.create_user_message`,
`create_ai_message` and `create_system_message`. -/
structure MsgRow where
  message_type : MessageType
  status : MessageStatus
  content : String
deriving DecidableEq, Repr

/-- The HTTP response of `create_message`: a message schema, or an
`HTTPException` status code. -/
inductive CreateResponse where
  | ok (m : MsgRow)
  | httpError (code : Nat)
deriving DecidableEq, Repr

/-- Everything observable about one `create_message` request: the rows it
created, whether the AI dispatch was attempted, the Celery
`update_message_status.delay` calls it queued for the AI message, the
payloads it broadcast (the endpoint contains no broadcast call), and the
HTTP response. -/
structure CreateMessageOut where
  created_user : Option MsgRow
  created_ai : Option MsgRow
  created_system : Option MsgRow
  ai_dispatch_attempted : Bool
  queued_status_updates : List MessageStatus
  broadcasts : List BroadcastMsg
  response : CreateResponse
deriving DecidableEq, Repr

/-- `create_message` (`app/api/chats.py` lines 191–339).  Support
requests (lines 203–228) create and return a single system message and
never reach the AI path.  Otherwise a user message (`completed`) and an
AI message (`pending`) are created, conversation history and the callback
URL are prepared, and the AI dispatch runs.  The dispatch raises (see
`dispatch_to_ai`), control reaches `except Exception` (line 334), and the
endpoint answers 500 with the AI message still `pending`.  The
success/failure branches of lines 287–327 are kept in the embedding for
reference but are unreachable under this revision of `ai_service.py`. -/
def create_message (content callback_url : String)
    (outcome : AiHttpOutcome) : CreateMessageOut :=
  if is_support_request content then
    let sys : MsgRow :=
      { message_type := .system, status := .completed, content := support_response_content }
    { created_user := none, created_ai := none, created_system := some sys
      ai_dispatch_attempted := false, queued_status_updates := [], broadcasts := []
      response := CreateResponse.ok sys }
  else
    let userMsg : MsgRow := { message_type := .user, status := .completed, content := content }
    let aiMsg : MsgRow := { message_type := .ai, status := .pending, content := "" }
    match dispatch_to_ai content callback_url outcome with
    | .error _ =>
      { created_user := some userMsg, created_ai := some aiMsg, created_system := none
        ai_dispatch_attempted := true, queued_status_updates := [], broadcasts := []
        response := CreateResponse.httpError 500 }
    | .ok success =>
      if success then
        { created_user := some userMsg, created_ai := some aiMsg, created_system := none
          ai_dispatch_attempted := true, queued_status_updates := [.processing], broadcasts := []
          response := CreateResponse.ok userMsg }
      else
        { created_user := some userMsg
          created_ai := some { message_type := .ai, status := .failed, content := failure_placeholder }
          created_system := none
          ai_dispatch_attempted := true, queued_status_updates := [.failed], broadcasts := []
          response := CreateResponse.ok userMsg }

/-! ## Connection registry and live sessions (`app/api/websockets.py`) -/

/-- A WebSocket object: its Python `id()`, its
`client_state == CONNECTED` flag, and whether its `send_json` resp.
`close` coroutines succeed or raise. -/
structure WsConn where
  id : Nat
  connected : Bool
  send_ok : Bool
  close_ok : Bool
deriving DecidableEq, Repr

/-- `is_websocket_connected` (`app/api/websockets.py` lines 50–55). -/
def is_websocket_connected (ws : WsConn) : Bool := ws.connected

/-- `connection.send_json(message)`: succeeds or raises. -/
def ws_send_json (ws : WsConn) (_msg : BroadcastMsg) : Except String Unit :=
  if ws.send_ok then .ok () else .error "send raised"

/-- `websocket.close(...)`: succeeds or raises. -/
def ws_close (ws : WsConn) : Except String Unit :=
  if ws.close_ok then .ok () else .error "close raised"

/-- One value of the `active_connections` table: the list of live
connections for a `chat_id:user_id` key and the key's last-activity
time (event-loop seconds). -/
structure ConnEntry where
  connections : List WsConn
  last_activity : Nat
deriving DecidableEq, Repr

/-- The `active_connections` dict (`app/api/websockets.py` line 29),
modelled as an association list keyed by the `chat_id:user_id` string. -/
abbrev Registry := List (String × ConnEntry)

/-- Dict lookup on the registry. -/
def lookupReg : Registry → String → Option ConnEntry
  | [], _ => none
  | (k', e) :: rest, k => if k' = k then some e else lookupReg rest k

/-- Dict item update on the registry (first binding wins, as for a
Python dict, whose keys are unique). -/
def updateReg : Registry → String → (ConnEntry → ConnEntry) → Registry
  | [], _, _ => []
  | (k', e) :: rest, k, f =>
    if k' = k then (k', f e) :: rest else (k', e) :: updateReg rest k f

/-- The registration step of `websocket_endpoint` (lines 160–170):
create an empty entry when the key is new, then append the websocket and
refresh `last_activity` only when the object is not already in the key's
list. -/
def register_connection (reg : Registry) (key : String) (ws : WsConn) (now : Nat) : Registry :=
  let reg1 := match lookupReg reg key with
    | none => reg ++ [(key, { connections := [], last_activity := now })]
    | some _ => reg
  updateReg reg1 key (fun e =>
    if ws ∈ e.connections then e
    else { connections := e.connections ++ [ws], last_activity := now })

/-- The key's current connection list (what `broadcast_message` copies
before iterating). -/
def snapshot (reg : Registry) (key : String) : List WsConn :=
  match lookupReg reg key with
  | some e => e.connections
  | none => []

/-- The `for connection in connections:` loop of `broadcast_message`:
each connected websocket is sent the payload, a per-connection
`try/except` catching every send failure (the loop is never aborted).
Returns the ids of the connections the payload was delivered to, in
iteration order. -/
def deliver_all (msg : BroadcastMsg) : List WsConn → List Nat
  | [] => []
  | ws :: rest =>
    if is_websocket_connected ws then
      match ws_send_json ws msg with
      | .ok _ => ws.id :: deliver_all msg rest
      | .error _ => deliver_all msg rest
    else deliver_all msg rest

/-- `broadcast_message` (`app/api/websockets.py` lines 350–375) for the
key `f"{chat_id}:{user_id}"`: an absent key logs and returns; otherwise
the connection list is copied (`.copy()`) and handed to the delivery
loop.  The `Except` result shows no exception escapes to the caller. -/
def broadcast_message (reg : Registry) (key : String) (msg : BroadcastMsg) :
    Except String (List Nat) :=
  match lookupReg reg key with
  | none => .ok []
  | some entry =>
    .ok (deliver_all msg entry.connections)

/-- `safe_close_websocket` (`app/api/websockets.py` lines 71–92).  The
global `connection_ids` set of already-closed ids is the extra state;
the `code`/`reason` arguments do not influence control flow and are
elided.  Returns `(closed_now, connection_ids')`; the `Except` result
shows no branch lets an exception escape. -/
def safe_close_websocket (connection_ids : List Nat) (ws : WsConn) :
    Except String (Bool × List Nat) :=
  if ws.id ∈ connection_ids then
    .ok (false, connection_ids)
  else if !is_websocket_connected ws then
    .ok (false, connection_ids ++ [ws.id])
  else
    match ws_close ws with
    | .ok _ => .ok (true, connection_ids ++ [ws.id])
    | .error _ => .ok (false, connection_ids ++ [ws.id])

/-! ## Stale connection reaper -/

/-- The reaper's scan interval (spec §4.6: fixed interval, e.g. 60s). -/
def reaper_interval : Nat := 60

/-- The inactivity threshold (spec §4.6: e.g. 600s). -/
def inactivity_threshold : Nat := 600

/-- Modelled from the spec: the Stale Connection Reaper of §4.6.  The
source under `app/` only declares the `active_connections` table with its
`last_activity` timestamps (`app/api/websockets.py` lines 22–32); no
background reaper loop exists in the source tree, so one scan is modelled
from the spec's words: "scan all registry keys, and for any key whose
last-activity exceeds an inactivity threshold (e.g. 600s), force-close
every connection under that key and remove the key."  Returns the
surviving registry and the connections that were force-closed. -/
def reap_stale (now : Nat) (reg : Registry) : Registry × List WsConn :=
  (reg.filter (fun kv => ¬ now - kv.2.last_activity > inactivity_threshold),
   ((reg.filter (fun kv => now - kv.2.last_activity > inactivity_threshold)).map
      (fun kv => kv.2.connections)).flatten)

/-- Modelled from the spec: the background loop runs `reap_stale` at each
of the given scan times in order. -/
def run_reaper (scans : List Nat) (reg : Registry) : Registry :=
  scans.foldl (fun r t => (reap_stale t r).1) reg

/-- Modelled from the spec: the fixed-interval scan schedule — the `k`-th
scan of a loop whose first scan happens at `t0` runs at `t0 + 60·k`. -/
def scan_time (t0 k : Nat) : Nat := t0 + reaper_interval * k

/-- The index of the first scheduled scan strictly later than
`T + inactivity_threshold` — the scan at which a key last active at `T`
becomes eligible for reaping. -/
def first_stale_scan (t0 T : Nat) : Nat :=
  (T + inactivity_threshold - t0) / reaper_interval + 1

/-! ## Reactions (`app/services/chat_service.py`, `add_reaction`,
lines 232–258) -/

/-- A `Reaction` row. -/
structure ReactionRow where
  message_id : String
  reaction_type : ReactionType
deriving DecidableEq, Repr

/-- The slice of the database `add_reaction` touches: which message ids
exist, and the `Reaction` table. -/
structure ReactionDb where
  message_ids : List String
  reactions : List ReactionRow
deriving DecidableEq, Repr

/-- `add_reaction`: 404 when the message row is absent (no state
touched); otherwise delete every reaction of that message, insert the new
one, and return it. -/
def add_reaction (db : ReactionDb) (message_id : String) (rt : ReactionType) :
    Except Nat (ReactionDb × ReactionRow) :=
  if message_id ∈ db.message_ids then
    let remaining := db.reactions.filter (fun r => ¬ r.message_id = message_id)
    let reaction : ReactionRow := { message_id := message_id, reaction_type := rt }
    .ok ({ db with reactions := remaining ++ [reaction] }, reaction)
  else
    .error 404

/-! ## Concrete states used by counterexamples and witnesses -/

/-- A callback state mid-stream: the addressed AI message is
`processing`, Redis has accumulated `"Hi there"`, one source row will be
attached at finalization. -/
def exCallbackState : CallbackState :=
  { message := some { content := "", status := .processing }
    chat := some { user_id := "u1", suggestions := ["follow-up?"] }
    sources := []
    redis := { content := [("m1", "Hi there")], lastUpdated := [("m1", "5")] }
    broadcasts := [] }

/-- A final callback payload carrying the last fragment `"!"` and one
source reference. -/
def exFinalData : CallbackData :=
  { chunk_id := some "c3", content := some "!", is_final := some true
    name := none, suggestions := []
    context_used := [{ id := some "1", source := "doc.pdf", title := "", page := some 3 }]
    content_used := [] }

/-- A live connection whose `send_json` raises. -/
def exConnBadSend : WsConn := { id := 1, connected := true, send_ok := false, close_ok := true }

/-- A healthy live connection. -/
def exConnGood : WsConn := { id := 2, connected := true, send_ok := true, close_ok := true }

/-- A connection whose transport is already disconnected. -/
def exConnClosed : WsConn := { id := 3, connected := false, send_ok := true, close_ok := true }

/-- A registry with one key holding the three connections above. -/
def exRegistry : Registry :=
  [("c:u", { connections := [exConnBadSend, exConnGood, exConnClosed], last_activity := 0 })]

/-- A chunk payload used for broadcast examples. -/
def exChunkMsg : BroadcastMsg :=
  BroadcastMsg.chunk
    { target := "c:u", message_id := "m1", content := "x", chat_name := none, suggestions := [] }

/-! ## Helper lemmas -/

theorem assocFind_assocAppend (l : List (String × String)) (k v : String) (m : String) :
    assocFind (assocAppend l k v) m =
      if m = k then some ((assocFind l k).getD "" ++ v) else assocFind l m := by
  induction l with
  | nil =>
    by_cases h : m = k
    · subst h; simp [assocAppend, assocFind]
    · have h' : ¬ k = m := fun hh => h hh.symm
      simp [assocAppend, assocFind, h, h']
  | cons hd tl ih =>
    obtain ⟨k', v'⟩ := hd
    by_cases hk : k' = k
    · subst hk
      by_cases hm : m = k'
      · subst hm; simp [assocAppend, assocFind]
      · have hm' : ¬ k' = m := fun hh => hm hh.symm
        simp [assocAppend, assocFind, hm, hm']
    · by_cases hm : m = k'
      · subst hm
        have hmk : ¬ m = k := fun hh => hk (hh.symm ▸ rfl)
        simp [assocAppend, assocFind, hk, hmk]
      · have hm' : ¬ k' = m := fun hh => hm hh.symm
        simp [assocAppend, assocFind, hk, hm', ih]

theorem get_after_save (st : RedisState) (mid chunk now m : String) :
    get_message_content_from_redis (save_message_chunk_to_redis st mid chunk now) m =
      if m = mid then get_message_content_from_redis st mid ++ chunk
      else get_message_content_from_redis st m := by
  unfold get_message_content_from_redis save_message_chunk_to_redis
  simp only [assocFind_assocAppend]
  by_cases h : m = mid
  · simp [h]
    cases assocFind st.content mid <;> simp
  · simp [h]

theorem replayAppends_get (ops : List AppendOp) (st : RedisState) (m : String) :
    get_message_content_from_redis (replayAppends st ops) m =
      get_message_content_from_redis st m ++ appendedFor ops m := by
  induction ops generalizing st with
  | nil => simp [replayAppends, appendedFor, concatAll]
  | cons op rest ih =>
    simp only [replayAppends, List.foldl_cons] at *
    rw [ih]
    by_cases h : op.message_id = m
    · have hm : m = op.message_id := h.symm
      rw [get_after_save]
      simp [appendedFor, hm, concatAll, String.append_assoc]
    · have hm : ¬ m = op.message_id := fun hc => h hc.symm
      rw [get_after_save]
      simp [appendedFor, h, hm]

theorem string_append_eq_self (a b : String) : a ++ b = a ↔ b = "" := by
  constructor
  · intro h
    have hd : a.data ++ b.data = a.data := by
      have := congrArg String.data h
      simpa [String.data_append] using this
    have hb : b.data = ([] : List Char) :=
      @List.append_cancel_left Char a.data b.data []
        (by rw [List.append_nil]; exact hd)
    cases b; simp_all
  · intro h; subst h; exact String.append_empty a

theorem mkSourceRow_message_id (mid : String) (ref : SrcData) (r : SourceRow)
    (h : mkSourceRow mid ref = some r) : r.message_id = mid := by
  unfold mkSourceRow at h
  cases hid : ref.id with
  | none => rw [hid] at h; exact absurd h (by simp)
  | some rid =>
    rw [hid] at h
    dsimp only at h
    by_cases hcond : rid ≠ "" ∧ ref.source ≠ ""
    · rw [if_pos hcond] at h
      obtain rfl := Option.some.inj h
      rfl
    · rw [if_neg hcond] at h; exact absurd h (by simp)

theorem filterMap_mkSourceRow_all_mid (mid : String) (refs : List SrcData) :
    (refs.filterMap (mkSourceRow mid)).filter (fun s => ¬ s.message_id = mid) = [] := by
  refine List.filter_eq_nil_iff.mpr ?_
  intro s hs
  obtain ⟨ref, _, hr⟩ := List.mem_filterMap.mp hs
  simp [mkSourceRow_message_id mid ref s hr]

theorem filter_twice {α : Type} (l : List α) (p : α → Bool) :
    (l.filter p).filter p = l.filter p :=
  List.filter_eq_self.mpr (fun _a ha => (List.mem_filter.mp ha).2)

/-- Characterization of one final (`is_final=true`) callback with all
required keys present on an existing message: the result is success, the
persisted content is the previously accumulated store content extended by
this call's fragment, the Redis state gains exactly this append, the chat
row is untouched and the source set is replaced (when the payload carries
sources) or untouched (when it does not). -/
theorem message_callback_final_spec
    (chat_id mid now : String) (st : CallbackState) (data : CallbackData)
    (m : MsgRec) (cid c : String)
    (hm : st.message = some m) (hcid : data.chunk_id = some cid)
    (hc : data.content = some c) (hf : data.is_final = some true) :
    (message_callback chat_id mid now st data).2 = CbResult.success ∧
    (message_callback chat_id mid now st data).1.message =
      some { content := get_message_content_from_redis st.redis mid ++ c
             status := MessageStatus.completed } ∧
    (message_callback chat_id mid now st data).1.redis =
      save_message_chunk_to_redis st.redis mid c now ∧
    (message_callback chat_id mid now st data).1.chat = st.chat ∧
    (message_callback chat_id mid now st data).1.sources =
      (if (if data.content_used ≠ [] then data.content_used else data.context_used) ≠ [] then
        st.sources.filter (fun s => ¬ s.message_id = mid) ++
          (if data.content_used ≠ [] then data.content_used
           else data.context_used).filterMap (mkSourceRow mid)
      else st.sources) := by
  obtain ⟨msgOpt, chatOpt, srcs, rds, bl⟩ := st
  obtain ⟨cido, co, fo, nameo, sugg, ctxu, cntu⟩ := data
  dsimp only at hm hcid hc hf ⊢
  subst hm; subst hcid; subst hc; subst hf
  simp [message_callback, get_after_save]

/-! ## C1 — duplicate final callback -/

/-- C1, counterexample.  The claim says a second `is_final=true` callback
for an already-completed message short-circuits and leaves the content
unchanged.  On the code it is false: starting from a `processing` message
with `"Hi there"` accumulated and sending the same final callback
(fragment `"!"`) twice, the first call persists `"Hi there!"` but the
second call re-appends the fragment and persists `"Hi there!!"` — while
still returning success. -/
theorem duplicate_final_callback_changes_content :
    (message_callback "chat1" "m1" "7"
        (message_callback "chat1" "m1" "6" exCallbackState exFinalData).1 exFinalData).2 =
      CbResult.success ∧
    Option.map MsgRec.content
        (message_callback "chat1" "m1" "6" exCallbackState exFinalData).1.message =
      some "Hi there!" ∧
    Option.map MsgRec.content
        (message_callback "chat1" "m1" "7"
          (message_callback "chat1" "m1" "6" exCallbackState exFinalData).1 exFinalData).1.message =
      some "Hi there!!" ∧
    ("Hi there!!" : String) ≠ "Hi there!" := by
  refine ⟨rfl, rfl, rfl, by decide⟩

/-- C1, amended.  `message_callback` has no already-completed check: a
duplicate final callback is fully re-processed.  It still returns
success, the status stays `completed` (the only transition into
`completed` is the first call's), and the source citations are not
duplicated (the source set is deleted and re-inserted, so the second call
leaves it equal) — but the duplicate's content fragment is appended
again, so the persisted content becomes the first call's content extended
by that fragment; it is unchanged only when the fragment is empty. -/
theorem final_callback_reprocessed
    (chat_id mid now now' : String) (st : CallbackState) (data : CallbackData)
    (m : MsgRec) (cid c : String)
    (hm : st.message = some m)
    (hcid : data.chunk_id = some cid)
    (hc : data.content = some c)
    (hf : data.is_final = some true) :
    ∃ m1 m2 : MsgRec,
      (message_callback chat_id mid now st data).1.message = some m1 ∧
      (message_callback chat_id mid now st data).2 = CbResult.success ∧
      m1.status = MessageStatus.completed ∧
      (message_callback chat_id mid now'
          (message_callback chat_id mid now st data).1 data).1.message = some m2 ∧
      (message_callback chat_id mid now'
          (message_callback chat_id mid now st data).1 data).2 = CbResult.success ∧
      m2.status = MessageStatus.completed ∧
      m2.content = m1.content ++ c ∧
      (m2.content = m1.content ↔ c = "") ∧
      (message_callback chat_id mid now'
          (message_callback chat_id mid now st data).1 data).1.sources =
        (message_callback chat_id mid now st data).1.sources := by
  obtain ⟨hres1, hmsg1, hredis1, hchat1, hsrc1⟩ :=
    message_callback_final_spec chat_id mid now st data m cid c hm hcid hc hf
  obtain ⟨hres2, hmsg2, hredis2, hchat2, hsrc2⟩ :=
    message_callback_final_spec chat_id mid now'
      (message_callback chat_id mid now st data).1 data _ cid c hmsg1 hcid hc hf
  refine ⟨_, _, hmsg1, hres1, rfl, hmsg2, hres2, rfl, ?_, ?_, ?_⟩
  · show get_message_content_from_redis
        (message_callback chat_id mid now st data).1.redis mid ++ c =
      (get_message_content_from_redis st.redis mid ++ c) ++ c
    rw [hredis1, get_after_save]
    simp
  · show (get_message_content_from_redis
        (message_callback chat_id mid now st data).1.redis mid ++ c =
      get_message_content_from_redis st.redis mid ++ c) ↔ c = ""
    rw [hredis1, get_after_save]
    simp only [if_pos rfl]
    exact string_append_eq_self _ c
  · rw [hsrc2, hsrc1]
    by_cases hs : (if data.content_used ≠ [] then data.content_used
        else data.context_used) = []
    · simp [hs]
    · simp only [ne_eq, hs, not_false_eq_true, if_true]
      rw [List.filter_append, filter_twice, filterMap_mkSourceRow_all_mid]
      simp

/-- C1, witness for `final_callback_reprocessed` at the concrete
mid-stream state and duplicate final payload. -/
theorem final_callback_reprocessed_witness :
    ∃ m1 m2 : MsgRec,
      (message_callback "chat1" "m1" "6" exCallbackState exFinalData).1.message = some m1 ∧
      (message_callback "chat1" "m1" "6" exCallbackState exFinalData).2 = CbResult.success ∧
      m1.status = MessageStatus.completed ∧
      (message_callback "chat1" "m1" "7"
          (message_callback "chat1" "m1" "6" exCallbackState exFinalData).1 exFinalData).1.message
        = some m2 ∧
      (message_callback "chat1" "m1" "7"
          (message_callback "chat1" "m1" "6" exCallbackState exFinalData).1 exFinalData).2
        = CbResult.success ∧
      m2.status = MessageStatus.completed ∧
      m2.content = m1.content ++ "!" ∧
      (m2.content = m1.content ↔ ("!" : String) = "") ∧
      (message_callback "chat1" "m1" "7"
          (message_callback "chat1" "m1" "6" exCallbackState exFinalData).1 exFinalData).1.sources
        = (message_callback "chat1" "m1" "6" exCallbackState exFinalData).1.sources :=
  final_callback_reprocessed "chat1" "m1" "6" "7" exCallbackState exFinalData
    { content := "", status := .processing } "c3" "!" rfl rfl rfl rfl

/-! ## C2 — chunk-store accumulation -/

/-- C2.  (1) Starting from an empty store, after any interleaved sequence
of `save_message_chunk_to_redis` appends, `get_message_content_from_redis`
for a message id returns exactly the ordered concatenation of the
fragments appended for that id (and `""` when none were — `appendedFor`
of no fragments is `""`).  (2) At finalization, the content persisted by
`message_callback` equals the accumulated store content for the message,
i.e. everything appended so far including the final call's own
fragment. -/
theorem chunk_accumulation_correct :
    (∀ (ops : List AppendOp) (m : String),
        get_message_content_from_redis (replayAppends RedisState.empty ops) m
          = appendedFor ops m) ∧
    (∀ (chat_id mid now : String) (st : CallbackState) (data : CallbackData)
        (m : MsgRec) (cid c : String),
        st.message = some m → data.chunk_id = some cid → data.content = some c →
        data.is_final = some true →
        (message_callback chat_id mid now st data).1.message =
          some { content := get_message_content_from_redis st.redis mid ++ c
                 status := MessageStatus.completed }) := by
  constructor
  · intro ops m
    rw [replayAppends_get]
    rw [show get_message_content_from_redis RedisState.empty m = "" from rfl]
    exact String.empty_append _
  · intro chat_id mid now st data m cid c hm hcid hc hf
    exact (message_callback_final_spec chat_id mid now st data m cid c hm hcid hc hf).2.1

/-- C2, witness: three interleaved appends for two message ids, and one
concrete finalization. -/
theorem chunk_accumulation_correct_witness :
    get_message_content_from_redis
        (replayAppends RedisState.empty
          [⟨"m1", "Hi", "1"⟩, ⟨"m2", "zzz", "2"⟩, ⟨"m1", " there", "3"⟩]) "m1"
      = appendedFor [⟨"m1", "Hi", "1"⟩, ⟨"m2", "zzz", "2"⟩, ⟨"m1", " there", "3"⟩] "m1" ∧
    (message_callback "chat1" "m1" "6" exCallbackState exFinalData).1.message =
      some { content := get_message_content_from_redis exCallbackState.redis "m1" ++ "!"
             status := MessageStatus.completed } :=
  ⟨chunk_accumulation_correct.1 _ "m1",
   chunk_accumulation_correct.2 "chat1" "m1" "6" exCallbackState exFinalData
     { content := "", status := .processing } "c3" "!" rfl rfl rfl rfl⟩

/-! ## C3 — failed generation dispatch -/

/-- C3, evaluation of the code at its failing inputs.  For every
non-support message creation — whatever the generation service would have
answered, including a connection error — the endpoint creates the user
message and the pending AI message, the dispatch step raises
(`send_to_ai_service` accepts no `file_contents` keyword and returns a
`bool` on which `.get` is called), the generic handler answers HTTP 500,
and the AI message is left in `pending` with empty content: it never
reaches `failed` with the placeholder, although no chunk is broadcast and
no retry is queued. -/
theorem ai_dispatch_crash_leaves_message_pending
    (content callback_url : String) (outcome : AiHttpOutcome)
    (h : is_support_request content = false) :
    create_message content callback_url outcome =
      { created_user := some { message_type := .user, status := .completed, content := content }
        created_ai := some { message_type := .ai, status := .pending, content := "" }
        created_system := none
        ai_dispatch_attempted := true
        queued_status_updates := []
        broadcasts := []
        response := .httpError 500 } := by
  have hbind : pyCallBindsOk send_to_ai_service_params create_message_ai_call_kwargs = false := by
    decide
  simp [create_message, h, dispatch_to_ai, hbind]

/-- C3, witness: creating the message `"Hello"` while the generation
service would raise a connection error. -/
theorem ai_dispatch_crash_leaves_message_pending_witness :
    create_message "Hello" "http://cb" AiHttpOutcome.connectionError =
      { created_user := some { message_type := .user, status := .completed, content := "Hello" }
        created_ai := some { message_type := .ai, status := .pending, content := "" }
        created_system := none
        ai_dispatch_attempted := true
        queued_status_updates := []
        broadcasts := []
        response := .httpError 500 } :=
  ai_dispatch_crash_leaves_message_pending "Hello" "http://cb"
    AiHttpOutcome.connectionError (by decide)

/-! ## C8 — support-request short-circuit -/

/-- C8.  Whenever the support-keyword detection fires (a keyword occurs
case-insensitively in the content), `create_message` creates exactly one
system message with the fixed support text and returns it: no user
message, no AI message, no status updates, no broadcast, and the
generation service is never contacted. -/
theorem support_request_system_message_only
    (content callback_url : String) (outcome : AiHttpOutcome)
    (h : is_support_request content = true) :
    create_message content callback_url outcome =
      { created_user := none
        created_ai := none
        created_system := some { message_type := .system, status := .completed
                                 content := support_response_content }
        ai_dispatch_attempted := false
        queued_status_updates := []
        broadcasts := []
        response := .ok { message_type := .system, status := .completed
                          content := support_response_content } } := by
  simp [create_message, h]

/-- C8, witness: the content `"Мне нужен ОПЕРАТОР"` (keyword in upper
case) triggers the support short-circuit. -/
theorem support_request_system_message_only_witness :
    is_support_request "Мне нужен ОПЕРАТОР" = true ∧
    create_message "Мне нужен ОПЕРАТОР" "http://cb" AiHttpOutcome.ok200 =
      { created_user := none
        created_ai := none
        created_system := some { message_type := .system, status := .completed
                                 content := support_response_content }
        ai_dispatch_attempted := false
        queued_status_updates := []
        broadcasts := []
        response := .ok { message_type := .system, status := .completed
                          content := support_response_content } } :=
  ⟨by decide,
   support_request_system_message_only "Мне нужен ОПЕРАТОР" "http://cb"
     AiHttpOutcome.ok200 (by decide)⟩

/-! ## C9 — in-progress content override in the listing -/

/-- C9.  For every message at position `i` of the listed rows: when it is
an AI message in `pending` or `processing` and the chunk store holds
non-empty accumulated content for it, the returned schema carries that
accumulated content (all other fields unchanged); in every other case the
row is returned unchanged. -/
theorem in_progress_content_override
    (msgs : List MsgFull) (redis : RedisState) (i : Nat) (m : MsgFull)
    (h : msgs[i]? = some m) :
    ∃ r, (get_messages msgs redis)[i]? = some r ∧
      r.id = m.id ∧ r.message_type = m.message_type ∧ r.status = m.status ∧
      (m.message_type = MessageType.ai ∧
          (m.status = MessageStatus.pending ∨ m.status = MessageStatus.processing) ∧
          get_message_content_from_redis redis m.id ≠ "" →
        r.content = get_message_content_from_redis redis m.id) ∧
      (¬ (m.message_type = MessageType.ai ∧
            (m.status = MessageStatus.pending ∨ m.status = MessageStatus.processing) ∧
            get_message_content_from_redis redis m.id ≠ "") →
        r = m) := by
  by_cases hcond : m.message_type = MessageType.ai ∧
      (m.status = MessageStatus.pending ∨ m.status = MessageStatus.processing)
  · by_cases hrc : get_message_content_from_redis redis m.id ≠ ""
    · have hr : (get_messages msgs redis)[i]? =
          some { m with content := get_message_content_from_redis redis m.id } := by
        rw [get_messages, List.getElem?_map, h]
        simp [hcond, hrc]
      exact ⟨_, hr, rfl, rfl, rfl, fun _ => rfl,
        fun hneg => absurd ⟨hcond.1, hcond.2, hrc⟩ hneg⟩
    · have hr : (get_messages msgs redis)[i]? = some m := by
        rw [get_messages, List.getElem?_map, h]
        simp [hcond, hrc]
      exact ⟨_, hr, rfl, rfl, rfl, fun hpos => absurd hpos.2.2 hrc, fun _ => rfl⟩
  · have hr : (get_messages msgs redis)[i]? = some m := by
      rw [get_messages, List.getElem?_map, h]
      simp [hcond]
    exact ⟨_, hr, rfl, rfl, rfl, fun hpos => absurd ⟨hpos.1, hpos.2.1⟩ hcond, fun _ => rfl⟩

/-- C9, witness: one AI message in `processing` whose store content is
`"partial answer"`, listed at position 0. -/
theorem in_progress_content_override_witness :
    ∃ r, (get_messages [{ id := "m1", message_type := .ai, status := .processing, content := "old" }]
        { content := [("m1", "partial answer")], lastUpdated := [] })[0]? = some r ∧
      r.id = "m1" ∧ r.message_type = MessageType.ai ∧ r.status = MessageStatus.processing ∧
      (MessageType.ai = MessageType.ai ∧
          (MessageStatus.processing = MessageStatus.pending ∨
            MessageStatus.processing = MessageStatus.processing) ∧
          get_message_content_from_redis
            { content := [("m1", "partial answer")], lastUpdated := [] } "m1" ≠ "" →
        r.content = get_message_content_from_redis
          { content := [("m1", "partial answer")], lastUpdated := [] } "m1") ∧
      (¬ (MessageType.ai = MessageType.ai ∧
            (MessageStatus.processing = MessageStatus.pending ∨
              MessageStatus.processing = MessageStatus.processing) ∧
            get_message_content_from_redis
              { content := [("m1", "partial answer")], lastUpdated := [] } "m1" ≠ "") →
        r = { id := "m1", message_type := .ai, status := .processing, content := "old" }) :=
  in_progress_content_override
    [{ id := "m1", message_type := .ai, status := .processing, content := "old" }]
    { content := [("m1", "partial answer")], lastUpdated := [] } 0
    { id := "m1", message_type := .ai, status := .processing, content := "old" } rfl

/-! ## C10 — reactions are replaced, not accumulated -/

/-- C10.  When the message exists, `add_reaction` succeeds and afterwards
the message's reactions are exactly the one just added, reactions of
other messages being untouched; when the message does not exist it raises
404 and changes nothing. -/
theorem add_reaction_single_reaction
    (db : ReactionDb) (mid : String) (rt : ReactionType) :
    (mid ∈ db.message_ids →
      ∃ db', add_reaction db mid rt =
          Except.ok (db', { message_id := mid, reaction_type := rt }) ∧
        db'.message_ids = db.message_ids ∧
        db'.reactions.filter (fun r => r.message_id = mid) =
          [{ message_id := mid, reaction_type := rt }] ∧
        db'.reactions.filter (fun r => ¬ r.message_id = mid) =
          db.reactions.filter (fun r => ¬ r.message_id = mid)) ∧
    (mid ∉ db.message_ids → add_reaction db mid rt = Except.error 404) := by
  constructor
  · intro hmem
    refine ⟨{ db with reactions :=
        db.reactions.filter (fun r => ¬ r.message_id = mid) ++
          [{ message_id := mid, reaction_type := rt }] }, ?_, rfl, ?_, ?_⟩
    · simp [add_reaction, hmem]
    · rw [List.filter_append]
      have h1 : (db.reactions.filter (fun r => ¬ r.message_id = mid)).filter
          (fun r => r.message_id = mid) = [] := by
        refine List.filter_eq_nil_iff.mpr ?_
        intro a ha
        have h2 := (List.mem_filter.mp ha).2
        simp at h2 ⊢
        exact h2
      rw [h1]
      simp
    · rw [List.filter_append, filter_twice]
      simp
  · intro hnot
    simp [add_reaction, hnot]

/-- C10, witness: adding a `dislike` to message `"m1"` which already has
a `like`, next to an unrelated reaction on `"m2"`; and a 404 on the
absent message `"m9"`. -/
theorem add_reaction_single_reaction_witness :
    (∃ db', add_reaction
          { message_ids := ["m1"]
            reactions := [{ message_id := "m1", reaction_type := .like },
                          { message_id := "m2", reaction_type := .dislike }] }
          "m1" ReactionType.dislike =
        Except.ok (db', { message_id := "m1", reaction_type := ReactionType.dislike }) ∧
      db'.message_ids = ["m1"] ∧
      db'.reactions.filter (fun r => r.message_id = "m1") =
        [{ message_id := "m1", reaction_type := ReactionType.dislike }] ∧
      db'.reactions.filter (fun r => ¬ r.message_id = "m1") =
        ([{ message_id := "m1", reaction_type := .like },
           { message_id := "m2", reaction_type := .dislike }] : List ReactionRow).filter
          (fun r => ¬ r.message_id = "m1")) ∧
    add_reaction { message_ids := ["m1"], reactions := [] } "m9" ReactionType.like =
      Except.error 404 :=
  ⟨by simpa using (add_reaction_single_reaction
      { message_ids := ["m1"]
        reactions := [{ message_id := "m1", reaction_type := .like },
                      { message_id := "m2", reaction_type := .dislike }] }
      "m1" ReactionType.dislike).1 (by simp),
   (add_reaction_single_reaction
      { message_ids := ["m1"], reactions := [] } "m9" ReactionType.like).2 (by simp)⟩

/-! ## C5 — broadcast failure isolation -/

theorem deliver_all_eq (msg : BroadcastMsg) (conns : List WsConn) :
    deliver_all msg conns =
      (conns.filter (fun ws => ws.connected && ws.send_ok)).map (fun ws => ws.id) := by
  induction conns with
  | nil => simp [deliver_all]
  | cons wshd tl ih =>
    by_cases hcon : wshd.connected <;> by_cases hsend : wshd.send_ok <;>
      simp [deliver_all, is_websocket_connected, ws_send_json, hcon, hsend, ih]

/-- C5.  Broadcasting to a key with no registry entry returns normally
with no deliveries; broadcasting to a registered key delivers the payload
to exactly the connected, send-capable connections — so a send failure on
any one connection never prevents delivery to the others, and no
exception escapes (`Except.ok` in every case). -/
theorem broadcast_failure_isolation (reg : Registry) (key : String) (msg : BroadcastMsg) :
    (lookupReg reg key = none → broadcast_message reg key msg = Except.ok []) ∧
    (∀ e, lookupReg reg key = some e →
      broadcast_message reg key msg =
        Except.ok ((e.connections.filter (fun ws => ws.connected && ws.send_ok)).map
          (fun ws => ws.id))) := by
  constructor
  · intro hnone
    simp [broadcast_message, hnone]
  · intro e he
    simp [broadcast_message, he, deliver_all_eq]

/-- C5, witness.  A key with three connections — one whose send raises,
one healthy, one already disconnected — delivers to exactly the healthy
one (id 2); an unknown key broadcasts to nobody and still returns `ok`. -/
theorem broadcast_failure_isolation_witness :
    broadcast_message exRegistry "c:u" exChunkMsg = Except.ok [2] ∧
    broadcast_message [] "c:u" exChunkMsg = Except.ok [] :=
  ⟨by simpa [exRegistry, exConnBadSend, exConnGood, exConnClosed] using
      (broadcast_failure_isolation exRegistry "c:u" exChunkMsg).2
        { connections := [exConnBadSend, exConnGood, exConnClosed], last_activity := 0 } rfl,
   (broadcast_failure_isolation [] "c:u" exChunkMsg).1 rfl⟩

/-! ## C6 — double registration is a no-op -/

theorem lookupReg_append_right (reg : Registry) (k : String) (e0 : ConnEntry)
    (h : lookupReg reg k = none) : lookupReg (reg ++ [(k, e0)]) k = some e0 := by
  induction reg with
  | nil => simp [lookupReg]
  | cons hd tl ih =>
    obtain ⟨k', e'⟩ := hd
    by_cases hk : k' = k
    · simp [lookupReg, hk] at h
    · simp only [List.cons_append, lookupReg, if_neg hk] at h ⊢
      exact ih h

theorem lookupReg_updateReg (reg : Registry) (k : String) (f : ConnEntry → ConnEntry) :
    lookupReg (updateReg reg k f) k = (lookupReg reg k).map f := by
  induction reg with
  | nil => simp [lookupReg, updateReg]
  | cons hd tl ih =>
    obtain ⟨k', e'⟩ := hd
    by_cases hk : k' = k <;> simp [lookupReg, updateReg, hk, ih]

theorem updateReg_id (reg : Registry) (k : String) (f : ConnEntry → ConnEntry) (e : ConnEntry)
    (hlk : lookupReg reg k = some e) (hfe : f e = e) : updateReg reg k f = reg := by
  induction reg with
  | nil => simp [lookupReg] at hlk
  | cons hd tl ih =>
    obtain ⟨k', e'⟩ := hd
    by_cases hk : k' = k
    · simp only [lookupReg, if_pos hk] at hlk
      obtain rfl := Option.some.inj hlk
      simp [updateReg, hk, hfe]
    · simp only [lookupReg, if_neg hk] at hlk
      simp [updateReg, hk, ih hlk]

/-- After registering, the key's entry exists and holds the websocket. -/
theorem register_lookup (reg : Registry) (key : String) (ws : WsConn) (t : Nat) :
    ∃ e, lookupReg (register_connection reg key ws t) key = some e ∧
      ws ∈ e.connections := by
  unfold register_connection
  cases hlk : lookupReg reg key with
  | none =>
    simp only [hlk]
    rw [lookupReg_updateReg, lookupReg_append_right _ _ _ hlk]
    exact ⟨_, rfl, by simp⟩
  | some e =>
    simp only [hlk]
    rw [lookupReg_updateReg, hlk]
    by_cases hmem : ws ∈ e.connections
    · exact ⟨e, by simp [hmem], hmem⟩
    · exact ⟨{ connections := e.connections ++ [ws], last_activity := t },
        by simp [hmem], by simp⟩

/-- The snapshot after a registration: unchanged when the websocket was
already under the key, extended by it otherwise. -/
theorem register_snapshot (reg : Registry) (key : String) (ws : WsConn) (t : Nat) :
    snapshot (register_connection reg key ws t) key =
      (if ws ∈ snapshot reg key then snapshot reg key else snapshot reg key ++ [ws]) := by
  unfold register_connection snapshot
  cases hlk : lookupReg reg key with
  | none =>
    simp only [hlk]
    rw [lookupReg_updateReg, lookupReg_append_right _ _ _ hlk]
    simp
  | some e =>
    simp only [hlk]
    rw [lookupReg_updateReg, hlk]
    by_cases hmem : ws ∈ e.connections <;> simp [hmem]

/-- C6.  Registering the same websocket twice under one key is literally
a no-op (the second call returns the registry unchanged, whatever the
timestamps), and — provided the websocket occurred at most once under the
key beforehand, which registration itself guarantees — the key's
connection list afterwards contains exactly one entry for it. -/
theorem register_twice_single_entry (reg : Registry) (key : String) (ws : WsConn) (t t' : Nat)
    (hcount : (snapshot reg key).count ws ≤ 1) :
    register_connection (register_connection reg key ws t) key ws t' =
      register_connection reg key ws t ∧
    (snapshot (register_connection reg key ws t) key).count ws = 1 := by
  obtain ⟨e1, hlk1, hmem1⟩ := register_lookup reg key ws t
  constructor
  · generalize hr1 : register_connection reg key ws t = r1 at hlk1 ⊢
    unfold register_connection
    simp only [hlk1]
    refine updateReg_id _ _ _ e1 hlk1 ?_
    simp [hmem1]
  · rw [register_snapshot]
    by_cases hmem : ws ∈ snapshot reg key
    · have hpos : 0 < (snapshot reg key).count ws := List.count_pos_iff.mpr hmem
      simp only [if_pos hmem]
      omega
    · have hzero : (snapshot reg key).count ws = 0 := List.count_eq_zero.mpr hmem
      simp [if_neg hmem, hzero]

/-- C6, witness: registering websocket 7 twice under a fresh key. -/
theorem register_twice_single_entry_witness :
    register_connection (register_connection []
        "c:u" { id := 7, connected := true, send_ok := true, close_ok := true } 1)
        "c:u" { id := 7, connected := true, send_ok := true, close_ok := true } 2 =
      register_connection []
        "c:u" { id := 7, connected := true, send_ok := true, close_ok := true } 1 ∧
    (snapshot (register_connection []
        "c:u" { id := 7, connected := true, send_ok := true, close_ok := true } 1)
        "c:u").count { id := 7, connected := true, send_ok := true, close_ok := true } = 1 :=
  register_twice_single_entry [] "c:u"
    { id := 7, connected := true, send_ok := true, close_ok := true } 1 2 (by decide)

/-! ## C7 — idempotent, non-raising close -/

/-- C7.  `safe_close_websocket` never lets an exception escape (every
branch returns `Except.ok`), it always records the websocket id in the
closed-ids set, and once the id is recorded every further call is a
no-op returning `false` ("already closed") with the state unchanged —
hence the second and all later close calls on a connection are benign. -/
theorem safe_close_idempotent_no_raise (ids : List Nat) (ws : WsConn) :
    ∃ b ids', safe_close_websocket ids ws = Except.ok (b, ids') ∧
      ws.id ∈ ids' ∧
      safe_close_websocket ids' ws = Except.ok (false, ids') := by
  by_cases hmem : ws.id ∈ ids
  · exact ⟨false, ids, by simp [safe_close_websocket, hmem], hmem,
      by simp [safe_close_websocket, hmem]⟩
  · by_cases hcon : ws.connected
    · by_cases hclose : ws.close_ok
      · refine ⟨true, ids ++ [ws.id], ?_, by simp, ?_⟩
        · simp [safe_close_websocket, hmem, is_websocket_connected, hcon, ws_close, hclose]
        · simp [safe_close_websocket]
      · refine ⟨false, ids ++ [ws.id], ?_, by simp, ?_⟩
        · simp [safe_close_websocket, hmem, is_websocket_connected, hcon, ws_close, hclose]
        · simp [safe_close_websocket]
    · refine ⟨false, ids ++ [ws.id], ?_, by simp, ?_⟩
      · simp [safe_close_websocket, hmem, is_websocket_connected, hcon]
      · simp [safe_close_websocket]

/-! ## C4 — stale connection reaper -/

/-- C4, counterexample.  Under the spec-modelled reaper (fixed 60-second
scans, 600-second threshold) with scans at 0, 60, …, 600, a key last
active at `T = 30` survives every scan that happens up to `T + 601 = 631`
— the next scan only runs at 660 — so "force-closed and removed by
T+601s" is false on this schedule. -/
theorem reaper_misses_601_deadline :
    ((List.range 11).map (scan_time 0)).all (fun s => s ≤ 30 + 601) = true ∧
    run_reaper ((List.range 11).map (scan_time 0))
        [("c:u", { connections := [{ id := 1, connected := true, send_ok := true, close_ok := true }]
                   last_activity := 30 })] =
      [("c:u", { connections := [{ id := 1, connected := true, send_ok := true, close_ok := true }]
                 last_activity := 30 })] := by
  decide

/-- C4, amended (spec-modelled).  A key last active at `T` (with the loop
started at `t0 ≤ T`) survives every scan up to `T + 599`; it is reaped —
the key removed and all its connections force-closed — at the first scan
strictly after `T + 600`, which happens no later than
`T + 600 + 60` (threshold plus one scan interval). -/
theorem reaper_removes_within_interval
    (t0 T : Nat) (key : String) (conns : List WsConn) (h0 : t0 ≤ T) :
    (∀ scans : List Nat, (∀ s ∈ scans, s ≤ T + 599) →
        run_reaper scans [(key, { connections := conns, last_activity := T })] =
          [(key, { connections := conns, last_activity := T })]) ∧
    T + inactivity_threshold < scan_time t0 (first_stale_scan t0 T) ∧
    scan_time t0 (first_stale_scan t0 T) ≤ T + inactivity_threshold + reaper_interval ∧
    reap_stale (scan_time t0 (first_stale_scan t0 T))
        [(key, { connections := conns, last_activity := T })] = ([], conns) := by
  have harith : T + inactivity_threshold < scan_time t0 (first_stale_scan t0 T) ∧
      scan_time t0 (first_stale_scan t0 T) ≤ T + inactivity_threshold + reaper_interval := by
    unfold scan_time first_stale_scan inactivity_threshold reaper_interval
    have h1 := Nat.div_add_mod (T + 600 - t0) 60
    have h2 : (T + 600 - t0) % 60 < 60 := Nat.mod_lt _ (by decide)
    omega
  refine ⟨?_, harith.1, harith.2, ?_⟩
  · intro scans hscans
    induction scans with
    | nil => rfl
    | cons s rest ih =>
      have hs : s ≤ T + 599 := hscans s (by simp)
      have hstep : (reap_stale s [(key, { connections := conns, last_activity := T })]).1 =
          [(key, { connections := conns, last_activity := T })] := by
        simp only [reap_stale]
        have hle : s ≤ inactivity_threshold + T := by
          unfold inactivity_threshold
          omega
        simp [hle]
      show run_reaper rest
          (reap_stale s [(key, { connections := conns, last_activity := T })]).1 = _
      rw [hstep]
      exact ih (fun x hx => hscans x (by simp [hx]))
  · have hgt : inactivity_threshold + T < scan_time t0 (first_stale_scan t0 T) := by
      have h1 := harith.1
      omega
    have hgt2 : inactivity_threshold < scan_time t0 (first_stale_scan t0 T) - T := by
      omega
    simp [reap_stale, hgt, hgt2]

/-- C4, witness for `reaper_removes_within_interval`: loop started at 0,
key last active at 0; it survives a scan at 599 and is reaped (its one
connection force-closed) at scan index 11, i.e. at time 660. -/
theorem reaper_removes_within_interval_witness :
    run_reaper [599]
        [("k", { connections := [{ id := 1, connected := true, send_ok := true, close_ok := true }]
                 last_activity := 0 })] =
      [("k", { connections := [{ id := 1, connected := true, send_ok := true, close_ok := true }]
               last_activity := 0 })] ∧
    0 + inactivity_threshold < scan_time 0 (first_stale_scan 0 0) ∧
    scan_time 0 (first_stale_scan 0 0) ≤ 0 + inactivity_threshold + reaper_interval ∧
    reap_stale (scan_time 0 (first_stale_scan 0 0))
        [("k", { connections := [{ id := 1, connected := true, send_ok := true, close_ok := true }]
                 last_activity := 0 })] =
      ([], [{ id := 1, connected := true, send_ok := true, close_ok := true }]) :=
  have h := reaper_removes_within_interval 0 0 "k"
    [{ id := 1, connected := true, send_ok := true, close_ok := true }] (Nat.le_refl 0)
  ⟨h.1 [599] (by simp), h.2.1, h.2.2.1, h.2.2.2⟩

end TenderBackend
